import Mathlib

/- Formal model of the EZREC backend, embedded from src/src/utils.py,
   src/src/camera.py, src/src/camera_interface.py and src/src/orchestrator.py:
   the local booking file, the reservation poller, the camera interface, the
   upload queue with its worker, and the recording-worker tick. -/

namespace EZREC

/-- JSON-ish field values stored in a booking dict. `time t` stands for a string
that `datetime.fromisoformat` parses, abstracted to its timestamp `t`; `raw s`
stands for a string that does not parse as an ISO timestamp; `null` is JSON
null. -/
inductive JVal where
  | null : JVal
  | time : Nat → JVal
  | raw : String → JVal
deriving DecidableEq, Repr

/-- A booking dict, as the association of its keys to values. Dict keys are
unique, and `List.lookup` returns the binding Python dict lookup would. -/
abbrev Booking := List (String × JVal)

/-- Content of temp/current_booking.json: `invalid` models a file whose JSON
fails to parse, `valid b` a file holding booking dict `b`. -/
inductive BFile where
  | invalid : BFile
  | valid : Booking → BFile
deriving DecidableEq, Repr

/-- The current-booking file: `none` when temp/current_booking.json is absent. -/
abbrev BookingFS := Option BFile

/-- Python `field in booking` on a dict: key membership. -/
def hasKey (b : Booking) (k : String) : Bool :=
  (b.lookup k).isSome

/-- Python truthiness of `booking.get('id')` in utils.load_booking: falsy when
the key is absent, the value is JSON null, or it is the empty string. -/
def idFalsy (b : Booking) : Bool :=
  match b.lookup "id" with
  | none => true
  | some JVal.null => true
  | some (JVal.raw "") => true
  | some _ => false

/-- utils.save_booking (utils.py lines 296-325): validates that the required
fields id, start_time, end_time are all present before touching the file; only
then writes the booking plus the bookkeeping fields saved_at / saved_by to
current_booking.json. `savedAt` abstracts `local_now().isoformat()`. The added
fields are prepended so that lookups see them override any pre-existing
binding, matching the dict update `{**booking, "saved_at": ...}`. -/
def save_booking (booking : Booking) (savedAt : String) (fs : BookingFS) :
    Bool × BookingFS :=
  if hasKey booking "id" && hasKey booking "start_time" &&
      hasKey booking "end_time" then
    (true, some (BFile.valid (("saved_at", JVal.raw savedAt) ::
        ("saved_by", JVal.raw "utils.save_booking") :: booking)))
  else
    (false, fs)

/-- utils.load_booking (utils.py lines 327-363) at current time `now`. Returns
the loaded booking (or none) together with the resulting state of
current_booking.json. A missing file, invalid JSON and a falsy id all yield
none without touching the file; an end_time that parses and lies strictly in
the past removes the file (utils.remove_booking) and yields none; an end_time
string that fails to parse only logs a warning and the booking is returned.
A JSON null end_time makes `datetime.fromisoformat` raise TypeError, which the
generic outer handler turns into none with the file left in place. -/
def load_booking (now : Nat) (fs : BookingFS) : Option Booking × BookingFS :=
  match fs with
  | none => (none, none)
  | some BFile.invalid => (none, some BFile.invalid)
  | some (BFile.valid b) =>
    if idFalsy b then (none, some (BFile.valid b))
    else
      match b.lookup "end_time" with
      | some (JVal.time t) =>
          if t < now then (none, none) else (some b, some (BFile.valid b))
      | some JVal.null => (none, some (BFile.valid b))
      | some (JVal.raw _) => (some b, some (BFile.valid b))
      | none => (some b, some (BFile.valid b))

/-- A row of the remote bookings table as read by utils.get_next_booking.
Dates and times-of-day are abstracted to naturals that preserve the
chronological order of the "YYYY-MM-DD" / "HH:MM" strings the source
compares. -/
structure BRow where
  id : String
  cameraId : String
  status : String
  date : Nat
  startTime : Nat
  endTime : Nat
deriving DecidableEq, Repr

/-- Row order produced by the query's ORDER BY date, start_time. -/
def rowLE (a b : BRow) : Prop :=
  a.date < b.date ∨ (a.date = b.date ∧ a.startTime ≤ b.startTime)

instance : DecidableRel rowLE := fun a b => by
  unfold rowLE; infer_instance

instance : IsTotal BRow rowLE :=
  ⟨by intro a b; unfold rowLE; omega⟩

instance : IsTrans BRow rowLE :=
  ⟨by intro a b c; unfold rowLE; omega⟩

/-- utils.get_next_booking (utils.py lines 365-411) against a snapshot `store`
of the bookings table. The remote query keeps the rows of this camera with
status "confirmed" and date >= today and hands them back ordered by
(date, start_time); the client loop then returns the first row that is on a
future date, or on today's date with start_time >= the current time-of-day.
A booking whose start time has passed is skipped even when its end time is
still in the future, and end_time is never consulted. -/
def get_next_booking (store : List BRow) (camId : String) (today nowTime : Nat) :
    Option BRow :=
  (List.insertionSort rowLE
      (store.filter (fun b => b.cameraId == camId && b.status == "confirmed" &&
        decide (today ≤ b.date)))).find?
    (fun b => if b.date == today then decide (nowTime ≤ b.startTime) else true)

/-- A row that the combined remote filter and client loop of get_next_booking
accepts as a candidate. -/
def eligibleRow (camId : String) (today nowTime : Nat) (b : BRow) : Prop :=
  b.cameraId = camId ∧ b.status = "confirmed" ∧ today ≤ b.date ∧
    (b.date = today → nowTime ≤ b.startTime)

instance (camId : String) (today nowTime : Nat) (b : BRow) :
    Decidable (eligibleRow camId today nowTime b) := by
  unfold eligibleRow; infer_instance

/-- Which capture backend CameraInterface bound (camera_interface.py,
`self.camera_type`). -/
inductive CamType where
  | picamera2
  | opencv
deriving DecidableEq, Repr

/-- State of CameraInterface (camera_interface.py). `camOpen` abstracts
`self.picam is not None` respectively `self.cap.isOpened()`; `recordingPath`
is `self.recording_path`. -/
structure CamIntf where
  cameraType : Option CamType
  camOpen : Bool
  recording : Bool
  recordingPath : Option String
  outputDir : String
deriving DecidableEq, Repr

/-- camera_interface.py `_is_camera_ready` (lines 439-445). -/
def CamIntf.is_camera_ready (s : CamIntf) : Bool :=
  match s.cameraType with
  | some _ => s.camOpen
  | none => false

/-- Environment facts outside the interface's control during start and stop:
whether the backend start call (picamera2 / VideoWriter setup) succeeds,
whether the destination file actually grows once capture starts, and the size
the recorded file has on disk when recording stops (`none` = file missing). -/
structure CamEnv where
  backendStartOk : Bool
  fileGrowsAfterStart : Bool
  stoppedFileSize : Option Nat
deriving DecidableEq, Repr

/-- Exceptions CameraInterface.start_recording can raise. -/
inductive CamErr where
  | runtimeNotReady
  | backendFailed
deriving DecidableEq, Repr

/-- camera_interface.py CameraInterface.start_recording (lines 222-254).
If already recording it returns `self.recording_path` unchanged; if the camera
is not ready it raises RuntimeError; otherwise it sets `recording_path`,
issues the backend start (which may raise), sets `recording = True` and
returns the path. `filename?` is the optional argument and `ts` abstracts the
strftime timestamp used when it is absent. The call returns as soon as the
backend start call returns: no re-check of the destination file's existence or
growth is performed, so `env.fileGrowsAfterStart` is never consulted. -/
def CamIntf.start_recording (env : CamEnv) (s : CamIntf)
    (filename? : Option String) (ts : String) :
    Except CamErr (Option String) × CamIntf :=
  if s.recording then
    (Except.ok s.recordingPath, s)
  else if s.is_camera_ready = false then
    (Except.error CamErr.runtimeNotReady, s)
  else
    let filename := match filename? with
      | some f => f
      | none => "recording_" ++ ts ++ ".mp4"
    let path := s.outputDir ++ "/" ++ filename
    if env.backendStartOk then
      (Except.ok (some path),
       { s with recordingPath := some path, recording := true })
    else
      (Except.error CamErr.backendFailed,
       { s with recordingPath := some path, recording := false })

/-- camera_interface.py CameraInterface.stop_recording (lines 337-381).
When not recording it returns None with no side effects. Otherwise it clears
`recording`, stops the backend, and returns the recorded path only when the
file exists with non-zero size (`env.stoppedFileSize`); an absent or empty
file yields None. `recording_path` itself is not cleared. -/
def CamIntf.stop_recording (env : CamEnv) (s : CamIntf) :
    Option String × CamIntf :=
  if s.recording = false then
    (none, s)
  else
    let s' := { s with recording := false }
    match s.recordingPath, env.stoppedFileSize with
    | some p, some sz => if 0 < sz then (some p, s') else (none, s')
    | some _, none => (none, s')
    | none, _ => (none, s')

/-- State of CameraService relevant to recording control (camera.py). -/
structure CamSvc where
  isRecording : Bool
  hasInterface : Bool
  currentBooking : Option String
  fileBookingMap : List (String × String)
  recordingStart : Option Nat
deriving DecidableEq, Repr

/-- camera.py CameraService.start_recording (lines 148-176). Returns False
immediately, the state untouched, when a recording is already active or when
no camera interface is initialized. Otherwise it binds the booking, asks the
interface to start (outcome `ifaceOk`), and on success marks recording,
records the start time `ts` and associates the generated `filename` with the
booking id when that id is truthy. When the interface raises, the handler
returns False with the booking already bound. -/
def CamSvc.start_recording (ifaceOk : Bool) (ts : Nat) (s : CamSvc)
    (bookingId : String) (filename : String) : Bool × CamSvc :=
  if s.isRecording then
    (false, s)
  else if s.hasInterface = false then
    (false, s)
  else if ifaceOk then
    (true,
     { s with
       currentBooking := some bookingId,
       isRecording := true,
       recordingStart := some ts,
       fileBookingMap :=
         if bookingId = "" then s.fileBookingMap
         else (filename, bookingId) :: s.fileBookingMap })
  else
    (false, { s with currentBooking := some bookingId })

/-- An entry of the in-memory upload queue: the tuple (file_path, booking_id)
that camera.py puts into `self.upload_queue`. `filePath = none` models the
poison pill (None, None) that stop_worker enqueues. -/
structure UploadTask where
  filePath : Option String
  bookingId : Option String
deriving DecidableEq, Repr

/-- CameraService state relevant to upload handling (camera.py).
`uploadQueue` is the in-memory queue.Queue, head first; `queueFile` the parsed
content of temp/upload_queue.json (`none` = absent); `fileBookingMap` mirrors
temp/file_booking_map.json; `localBookingFile` says whether
temp/current_booking.json exists; `localFiles` lists the recording files
present on local disk. -/
structure UploadSvc where
  uploadQueue : List UploadTask
  queueFile : Option (List UploadTask)
  fileBookingMap : List (String × String)
  localBookingFile : Bool
  localFiles : List String
deriving DecidableEq, Repr

/-- Externally visible effects of one camera.py / orchestrator.py step. The
three `remote*` mutation constructors are exactly the remote writes involved
in finishing a booking: the storage blob upload (camera.py line 343), the
videos-table metadata insert (camera.py line 354) and the bookings-table
status update to "completed" (camera.py line 394). -/
inductive Ev where
  | remoteUploadBlob : String → Ev
  | remoteInsertVideoMeta : String → Option String → Ev
  | remoteMarkBookingCompleted : String → Ev
  | remoteStatusUpsert : Ev
  | localRemoveBookingFile : Ev
  | localDeleteFile : String → Ev
  | workerStopped : Ev
deriving DecidableEq, Repr

/-- camera.py defines `_save_upload_queue` twice inside class CameraService:
once with no parameter (line 278, serializing `self.upload_queue`) and once
taking a `queue` list argument (line 630). A Python class body binds the later
definition, so every internal call `self._save_upload_queue()` (lines 310 and
374) invokes the two-parameter version with a missing argument and raises
TypeError before any file write. The shadowed line-278 body would not persist
either: `json.dump` cannot serialize a `queue.Queue` and the surrounding
except swallows that error without writing. Either way no call persists the
queue, so the model returns the state unchanged together with `true`,
meaning an exception was raised out of the call. -/
def save_upload_queue_call (s : UploadSvc) : UploadSvc × Bool :=
  (s, true)

/-- Python truthiness filter on an optional string: None and the empty string
are falsy. -/
def truthyStr (o : Option String) : Option String :=
  match o with
  | none => none
  | some s => if s = "" then none else some s

/-- camera.py CameraService.add_to_upload_queue (lines 307-315): puts the
tuple on the in-memory queue, then calls `self._save_upload_queue()`, which
raises (see `save_upload_queue_call`); the remaining statements, the
file-booking-map update and the worker restart, are skipped and the exception
propagates to the caller. Returns the new state and whether an exception
escaped the call. -/
def add_to_upload_queue (s : UploadSvc) (filePath : String)
    (bookingId : Option String) : UploadSvc × Bool :=
  let s1 := { s with uploadQueue :=
      s.uploadQueue ++ [{ filePath := some filePath, bookingId := bookingId }] }
  let r := save_upload_queue_call s1
  if r.2 then (r.1, true)
  else
    ({ r.1 with fileBookingMap :=
        match bookingId with
        | some b => (filePath, b) :: r.1.fileBookingMap
        | none => r.1.fileBookingMap }, false)

/-- camera.py CameraService.remove_booking_for_file (lines 386-407): resolves
the booking id (the argument when truthy, else the file-booking map), updates
the remote bookings row to status "completed" (its success is `completeOk`),
removes the local current-booking file and drops the map entry. All
exceptions are caught inside the function, so a failed remote update ends it
early without propagating and without the local removals. -/
def remove_booking_for_file (completeOk : Bool) (s : UploadSvc)
    (filePath : String) (bookingId : Option String) : UploadSvc × List Ev :=
  let bid := match truthyStr bookingId with
    | some b => some b
    | none => truthyStr (s.fileBookingMap.lookup filePath)
  match bid with
  | none => (s, [])
  | some b =>
    if completeOk then
      ({ s with
          localBookingFile := false,
          fileBookingMap :=
            s.fileBookingMap.filter (fun kv => kv.1 != filePath) },
       [Ev.remoteMarkBookingCompleted b, Ev.localRemoveBookingFile])
    else
      (s, [])

/-- One iteration of camera.py CameraService.upload_worker (lines 317-384).
`uploadOk`, `insertOk` and `completeOk` are the outcomes of the three remote
calls. An empty queue (queue.Empty) is a no-op; the poison pill stops the
worker; a task whose file is missing is popped and dropped without requeue.
On the success path the effects are, in order: blob upload, metadata insert,
then, when the task carries a truthy booking id, the bookings-table completion
with the local booking-file removal, then the status upsert and the local file
deletion. A failure of the blob upload or of the metadata insert re-queues the
very same tuple at the back of the queue; the `self._save_upload_queue()` that
follows raises (see `save_upload_queue_call`) and the worker's outer handler
only logs it, leaving the persisted file untouched. -/
def upload_worker_step (uploadOk insertOk completeOk : Bool) (s : UploadSvc) :
    UploadSvc × List Ev :=
  match s.uploadQueue with
  | [] => (s, [])
  | t :: rest =>
    match t.filePath with
    | none => ({ s with uploadQueue := rest }, [Ev.workerStopped])
    | some f =>
      let s1 := { s with uploadQueue := rest }
      if s1.localFiles.contains f then
        if uploadOk then
          if insertOk then
            let step2 : UploadSvc × List Ev :=
              match truthyStr t.bookingId with
              | some _ => remove_booking_for_file completeOk s1 f t.bookingId
              | none => (s1, [])
            ({ step2.1 with
               localFiles := step2.1.localFiles.filter (fun g => g != f) },
             [Ev.remoteUploadBlob f, Ev.remoteInsertVideoMeta f t.bookingId] ++
               step2.2 ++ [Ev.remoteStatusUpsert, Ev.localDeleteFile f])
          else
            ({ s1 with uploadQueue := rest ++ [t] }, [Ev.remoteUploadBlob f])
        else
          ({ s1 with uploadQueue := rest ++ [t] }, [])
      else
        (s1, [])

/-- File path of the task at the head of the upload queue (empty string for an
empty queue or the poison pill). -/
def headFile (s : UploadSvc) : String :=
  match s.uploadQueue with
  | t :: _ => t.filePath.getD ""
  | [] => ""

/-- Top-level function names defined in src/src/utils.py. orchestrator.py line
214 executes `from utils import complete_booking` inside the
booking-has-ended branch; utils defines no `complete_booking`, so that import
raises ImportError at the call site. -/
def utilsFunctionNames : List String :=
  ["get_local_timezone", "setup_logging", "get_system_metrics",
   "get_cpu_temperature", "get_ip_address", "local_now",
   "update_system_status", "save_booking", "load_booking",
   "get_next_booking", "remove_booking", "get_storage_used",
   "cleanup_temp_files", "format_timestamp", "validate_camera_access",
   "get_system_info", "start_heartbeat_thread", "stop_heartbeat_thread",
   "queue_upload", "get_upload_queue", "clear_upload_queue",
   "send_heartbeat", "_heartbeat_loop"]

/-- The `now >= end_time` branch of orchestrator.py recording_worker (lines
201-228) for the booking `bid`, acting on the camera-service upload state.
When a recording is active it calls CameraService.stop_recording, whose
processing pipeline at most enqueues the finished file in memory (`queued?`
covers the intro-splicing and booking-map-lookup outcomes), upserts the system
status and removes the local booking file; it performs no remote
bookings-table write. The branch then attempts
`from utils import complete_booking`: utils.py exports no such function (see
`utilsFunctionNames`), so the intended remote completion is unreachable, the
ImportError is caught, and the fallback once more removes only the local
current-booking file. -/
def recording_end_step (isRecording : Bool) (queued? : Option UploadTask)
    (s : UploadSvc) (bid : String) : UploadSvc × List Ev :=
  let base :=
    match queued? with
    | some t => { s with uploadQueue := s.uploadQueue ++ [t] }
    | none => s
  let s1 :=
    if isRecording then { base with localBookingFile := false } else s
  let evs1 : List Ev :=
    if isRecording then [Ev.remoteStatusUpsert, Ev.localRemoveBookingFile]
    else []
  if "complete_booking" ∈ utilsFunctionNames then
    (s1, evs1 ++ [Ev.remoteMarkBookingCompleted bid])
  else
    ({ s1 with localBookingFile := false },
     evs1 ++ [Ev.localRemoveBookingFile])

/-- Decision taken by one pass of orchestrator.py recording_worker (lines
144-232), as a function of the wall clock, the loaded booking window and the
current recording flag. With no booking an active recording is stopped
(lines 148-152); within [start, end) a recording is started when idle (lines
171-175); once `now >= end_time` — the source's comparison at line 202 is a
greater-or-equal test, not an equality test — an active recording is stopped
(lines 202-206). -/
inductive TickAct where
  | idle
  | startRec
  | stopRec
deriving DecidableEq, Repr

def recording_tick (now : Nat) (booking : Option (Nat × Nat))
    (isRecording : Bool) : TickAct :=
  match booking with
  | none => if isRecording then TickAct.stopRec else TickAct.idle
  | some (st, en) =>
    if st ≤ now ∧ now < en then
      (if isRecording then TickAct.idle else TickAct.startRec)
    else if en ≤ now then
      (if isRecording then TickAct.stopRec else TickAct.idle)
    else TickAct.idle

/-- Concrete states used by the claim witnesses and counterexamples. -/
def c10booking : Booking := [("end_time", JVal.time 0)]

def c10booking2 : Booking := [("id", JVal.raw "b1"), ("end_time", JVal.time 0)]

def c7row : BRow :=
  { id := "B1", cameraId := "raspberry_pi_camera", status := "confirmed",
    date := 10, startTime := 5, endTime := 20 }

def c7later : BRow :=
  { id := "B2", cameraId := "raspberry_pi_camera", status := "confirmed",
    date := 11, startTime := 3, endTime := 4 }

def c4intf : CamIntf :=
  { cameraType := some CamType.opencv, camOpen := true, recording := true,
    recordingPath := some "/tmp/rec.mp4", outputDir := "/tmp" }

def c4env : CamEnv :=
  { backendStartOk := true, fileGrowsAfterStart := true,
    stoppedFileSize := some 100 }

def c8intf : CamIntf :=
  { cameraType := some CamType.picamera2, camOpen := true, recording := false,
    recordingPath := none, outputDir := "/tmp" }

def c8env : CamEnv :=
  { backendStartOk := true, fileGrowsAfterStart := false,
    stoppedFileSize := none }

def c6svc : CamSvc :=
  { isRecording := true, hasInterface := true, currentBooking := some "b1",
    fileBookingMap := [], recordingStart := some 0 }

def c2svc : UploadSvc :=
  { uploadQueue := [], queueFile := some [], fileBookingMap := [],
    localBookingFile := false, localFiles := [] }

def c3task : UploadTask := { filePath := some "f.mp4", bookingId := some "b1" }

def c3svc : UploadSvc :=
  { uploadQueue := [c3task], queueFile := none, fileBookingMap := [],
    localBookingFile := true, localFiles := ["f.mp4"] }

def c1svc : UploadSvc :=
  { uploadQueue := [{ filePath := some "f.mp4", bookingId := some "b1" }],
    queueFile := none, fileBookingMap := [], localBookingFile := true,
    localFiles := ["f.mp4"] }

/-- Claim C9: save_booking with a missing required field returns False and
leaves the persisted current-booking file unchanged — the validation runs
before any write. -/
theorem save_booking_rejects_incomplete (booking : Booking) (savedAt : String)
    (fs : BookingFS)
    (h : hasKey booking "id" = false ∨ hasKey booking "start_time" = false ∨
      hasKey booking "end_time" = false) :
    save_booking booking savedAt fs = (false, fs) := by
  unfold save_booking
  rcases h with h | h | h <;> simp [h]

/-- Witness for C9 at a concrete booking missing end_time. -/
theorem save_booking_rejects_incomplete_witness :
    save_booking [("id", JVal.raw "b1"), ("start_time", JVal.raw "s")] "t" none
      = (false, none) :=
  save_booking_rejects_incomplete _ _ _ (Or.inr (Or.inr (by decide)))

/-- Claim C10, counterexample: a stored booking whose end_time parses and lies
strictly in the past but whose id is missing makes load_booking return none
while leaving the current-booking file in place — the id check at utils.py
line 340 returns before the expiry removal is reached, so the auto-removal the
claim states unconditionally does not happen. -/
theorem load_booking_expired_not_removed :
    c10booking.lookup "end_time" = some (JVal.time 0) ∧ 0 < 1 ∧
    load_booking 1 (some (BFile.valid c10booking))
      = (none, some (BFile.valid c10booking)) :=
  ⟨rfl, by decide, rfl⟩

/-- Claim C10 (amended): for a stored booking that passes the id truthiness
check, an end_time that parses and is strictly earlier than now makes
load_booking delete the current-booking file and return none; load_booking
also returns none, without raising, when the file is absent, when its JSON is
invalid, or when the id is falsy — in those cases the file is untouched. -/
theorem load_booking_contract (now t : Nat) (b : Booking)
    (hid : idFalsy b = false) (het : b.lookup "end_time" = some (JVal.time t))
    (hlt : t < now) :
    load_booking now (some (BFile.valid b)) = (none, none) ∧
    load_booking now none = (none, none) ∧
    load_booking now (some BFile.invalid) = (none, some BFile.invalid) ∧
    ∀ b' : Booking, idFalsy b' = true →
      load_booking now (some (BFile.valid b')) = (none, some (BFile.valid b')) := by
  refine ⟨?_, rfl, rfl, ?_⟩
  · unfold load_booking
    simp [hid, het, hlt]
  · intro b' h'
    unfold load_booking
    simp [h']

/-- Witness for C10's amended theorem at a concrete expired booking. -/
theorem load_booking_contract_witness :
    load_booking 1 (some (BFile.valid c10booking2)) = (none, none) :=
  (load_booking_contract 1 0 c10booking2 (by decide) (by decide) (by decide)).1

/-- Claim C4, counterexample: after a successful stop returned the recorded
file path, a second stop_recording on the same session returns None — not the
same file path as the claim states. -/
theorem stop_recording_second_call_differs :
    (CamIntf.stop_recording c4env c4intf).1 = some "/tmp/rec.mp4" ∧
    (CamIntf.stop_recording c4env (CamIntf.stop_recording c4env c4intf).2).1
      = none :=
  ⟨rfl, rfl⟩

/-- Claim C4 (amended): stop_recording on a session that is not recording is a
no-op — the second call performs no side effects and returns None rather than
the original file path. -/
theorem stop_recording_noop_when_stopped (env : CamEnv) (s : CamIntf)
    (h : s.recording = false) :
    CamIntf.stop_recording env s = (none, s) := by
  unfold CamIntf.stop_recording
  simp [h]

/-- Witness for C4's amended theorem: the second stop after a successful one. -/
theorem stop_recording_noop_witness :
    CamIntf.stop_recording c4env (CamIntf.stop_recording c4env c4intf).2
      = (none, (CamIntf.stop_recording c4env c4intf).2) :=
  stop_recording_noop_when_stopped c4env _ (by decide)

/-- Claim C8, counterexample: with the backend start call succeeding but the
destination file never growing afterwards, start_recording still reports
success with the destination path — it performs no existence or growth
re-check after any grace period. -/
theorem start_recording_no_growth_check :
    c8env.fileGrowsAfterStart = false ∧
    (CamIntf.start_recording c8env c8intf (some "rec.mp4") "ts").1
      = Except.ok (some "/tmp/rec.mp4") :=
  ⟨rfl, rfl⟩

/-- Claim C8 (amended): start_recording's outcome is independent of whether
the output file grows, and on an idle session it succeeds exactly when the
camera is ready and the backend start call succeeds — success means the start
command was issued, with no post-start verification of the output. -/
theorem start_recording_ignores_growth (env : CamEnv) (s : CamIntf)
    (filename? : Option String) (ts : String) (g : Bool)
    (h : s.recording = false) :
    CamIntf.start_recording { env with fileGrowsAfterStart := g } s filename? ts
      = CamIntf.start_recording env s filename? ts ∧
    ((CamIntf.start_recording env s filename? ts).1.isOk = true ↔
      (s.is_camera_ready = true ∧ env.backendStartOk = true)) := by
  constructor
  · rfl
  · unfold CamIntf.start_recording
    simp only [h, if_false, Bool.false_eq_true]
    cases h1 : s.is_camera_ready <;> cases h2 : env.backendStartOk <;>
      simp [Except.isOk, Except.toBool]

/-- Witness for C8's amended theorem at a concrete idle interface. -/
theorem start_recording_ignores_growth_witness :
    (CamIntf.start_recording { c8env with fileGrowsAfterStart := true } c8intf
        (some "rec.mp4") "ts"
      = CamIntf.start_recording c8env c8intf (some "rec.mp4") "ts") ∧
    ((CamIntf.start_recording c8env c8intf (some "rec.mp4") "ts").1.isOk = true
      ↔ (c8intf.is_camera_ready = true ∧ c8env.backendStartOk = true)) :=
  start_recording_ignores_growth c8env c8intf (some "rec.mp4") "ts" true rfl

/-- Claim C6: a start-recording request issued while a recording is already
active does not start a second one — CameraService.start_recording returns
False with the state untouched (camera.py lines 150-152), and
CameraInterface.start_recording returns the existing recording path with the
state untouched (camera_interface.py lines 224-226). -/
theorem single_active_recording
    (ok : Bool) (ts : Nat) (svc : CamSvc) (bid fn : String)
    (env : CamEnv) (ci : CamIntf) (filename? : Option String) (ts' : String)
    (h1 : svc.isRecording = true) (h2 : ci.recording = true) :
    CamSvc.start_recording ok ts svc bid fn = (false, svc) ∧
    CamIntf.start_recording env ci filename? ts'
      = (Except.ok ci.recordingPath, ci) := by
  constructor
  · unfold CamSvc.start_recording
    simp [h1]
  · unfold CamIntf.start_recording
    simp [h2]

/-- Witness for C6 on concrete recording states. -/
theorem single_active_recording_witness :
    CamSvc.start_recording true 0 c6svc "b2" "fn.mp4" = (false, c6svc) ∧
    CamIntf.start_recording c4env c4intf (some "g.mp4") "ts"
      = (Except.ok c4intf.recordingPath, c4intf) :=
  single_active_recording true 0 c6svc "b2" "fn.mp4" c4env c4intf
    (some "g.mp4") "ts" rfl rfl

/-- Claim C2: evaluating the enqueue mutation at a concrete input. The call
puts the task on the in-memory queue and then raises out of
`self._save_upload_queue()` (the `true` in the result), leaving
temp/upload_queue.json exactly as it was: the mutation is never persisted, and
no write path of camera.py uses write-new-then-atomic-rename. -/
theorem add_to_upload_queue_never_persists :
    add_to_upload_queue c2svc "/tmp/final_rec.mp4" (some "b1")
      = ({ c2svc with uploadQueue :=
            [{ filePath := some "/tmp/final_rec.mp4", bookingId := some "b1" }] },
         true) ∧
    (add_to_upload_queue c2svc "/tmp/final_rec.mp4" (some "b1")).1.queueFile
      = c2svc.queueFile :=
  ⟨rfl, rfl⟩

/-- Claim C3, counterexample: a failing upload attempt maps the concrete
service state to exactly itself with no events — the task is re-queued as the
very same tuple, with no attempts counter to increment, no backoff marker and
no dead-letter transition anywhere in the state. -/
theorem upload_failure_leaves_state_unchanged :
    upload_worker_step false false false c3svc = (c3svc, []) := by
  decide

/-- Claim C3 (amended): any failure of a remote step re-queues the dequeued
tuple unchanged at the back of the queue with no delay; the single-task
failing state is a fixed point of the worker step, so such a task is retried
indefinitely and never becomes dead-lettered. -/
theorem upload_failure_retries_forever (iOk cOk : Bool) (s : UploadSvc)
    (t : UploadTask) (rest : List UploadTask) (f : String)
    (h : s.uploadQueue = t :: rest) (hf : t.filePath = some f)
    (hmem : s.localFiles.contains f = true) :
    upload_worker_step false iOk cOk s
      = ({ s with uploadQueue := rest ++ [t] }, []) ∧
    (upload_worker_step false iOk cOk { s with uploadQueue := [t] }).1
      = { s with uploadQueue := [t] } := by
  obtain ⟨fp, bid⟩ := t
  dsimp only at hf
  subst hf
  have hmem' : f ∈ s.localFiles := by simpa using hmem
  constructor
  · unfold upload_worker_step
    rw [h]
    simp [hmem']
  · unfold upload_worker_step
    simp [hmem']

/-- Witness for C3's amended theorem on the concrete failing state. -/
theorem upload_failure_retries_forever_witness :
    (upload_worker_step false true true c3svc
      = ({ c3svc with uploadQueue := [] ++ [c3task] }, [])) ∧
    (upload_worker_step false true true { c3svc with uploadQueue := [c3task] }).1
      = { c3svc with uploadQueue := [c3task] } :=
  upload_failure_retries_forever true true c3svc c3task [] "f.mp4" rfl rfl rfl

/-- Claim C5: the recording worker's end-of-window comparison is
`now >= end_time` — a greater-or-equal test, never an equality test — so every
tick at or after the window end stops an active recording; consequently, for
ticks at times t0, t0+iv, t0+2iv, ... with tick interval iv, some tick lands
within one interval of the window end and triggers the stop there. -/
theorem stop_within_one_tick (t0 iv en st : Nat)
    (hi : 0 < iv) (h0 : t0 ≤ en) :
    (∀ now, en ≤ now →
      recording_tick now (some (st, en)) true = TickAct.stopRec) ∧
    ∃ k : Nat, en ≤ t0 + k * iv ∧ t0 + k * iv < en + iv ∧
      recording_tick (t0 + k * iv) (some (st, en)) true = TickAct.stopRec := by
  have hstop : ∀ now, en ≤ now →
      recording_tick now (some (st, en)) true = TickAct.stopRec := by
    intro now hn
    unfold recording_tick
    have h1 : ¬(st ≤ now ∧ now < en) := by omega
    simp [h1, hn]
  have hub : (en - t0 + iv - 1) / iv * iv ≤ en - t0 + iv - 1 :=
    Nat.div_mul_le_self (en - t0 + iv - 1) iv
  have hdm := Nat.div_add_mod (en - t0 + iv - 1) iv
  have hmlt : (en - t0 + iv - 1) % iv < iv := Nat.mod_lt _ hi
  have hlb : en ≤ t0 + (en - t0 + iv - 1) / iv * iv := by
    rw [Nat.mul_comm]
    omega
  refine ⟨hstop, (en - t0 + iv - 1) / iv, hlb, by omega, hstop _ hlb⟩

/-- Witness for C5 at a concrete tick schedule. -/
theorem stop_within_one_tick_witness :
    recording_tick 5 (some (2, 5)) true = TickAct.stopRec :=
  (stop_within_one_tick 0 1 5 2 (by decide) (by decide)).1 5 (by decide)

/-- Claim C1: the bookings-table completion is emitted by an upload-worker
step only when the blob upload, the metadata insert and the completion update
itself all succeed in that step, and then strictly after the upload and insert
events; and the recording worker's end-of-window branch never emits a remote
booking completion at all — its `from utils import complete_booking` raises,
so it only removes the local booking file. -/
theorem booking_completed_only_after_upload :
    (∀ uOk iOk cOk s b,
      Ev.remoteMarkBookingCompleted b ∈ (upload_worker_step uOk iOk cOk s).2 →
      uOk = true ∧ iOk = true ∧ cOk = true ∧
      (upload_worker_step uOk iOk cOk s).2
        = [Ev.remoteUploadBlob (headFile s),
           Ev.remoteInsertVideoMeta (headFile s) (some b),
           Ev.remoteMarkBookingCompleted b, Ev.localRemoveBookingFile,
           Ev.remoteStatusUpsert, Ev.localDeleteFile (headFile s)]) ∧
    (∀ isRec q s bid b,
      Ev.remoteMarkBookingCompleted b ∉ (recording_end_step isRec q s bid).2) := by
  constructor
  · intro uOk iOk cOk s b hmem
    obtain ⟨queue, qf, map, lb, lf⟩ := s
    cases queue with
    | nil => simp [upload_worker_step] at hmem
    | cons t rest =>
      obtain ⟨fp, bid⟩ := t
      cases fp with
      | none => simp [upload_worker_step] at hmem
      | some f =>
        cases hc : lf.contains f with
        | false =>
          have hc' : ¬ f ∈ lf := by simpa using hc
          simp [upload_worker_step, hc'] at hmem
        | true =>
          have hc' : f ∈ lf := by simpa using hc
          cases uOk with
          | false => simp [upload_worker_step, hc'] at hmem
          | true =>
            cases iOk with
            | false => simp [upload_worker_step, hc'] at hmem
            | true =>
              cases bid with
              | none => simp [upload_worker_step, truthyStr, hc'] at hmem
              | some bs =>
                by_cases hbs : bs = ""
                · subst hbs
                  simp [upload_worker_step, truthyStr, hc'] at hmem
                · cases cOk with
                  | false =>
                    simp [upload_worker_step, remove_booking_for_file,
                      truthyStr, hbs, hc'] at hmem
                  | true =>
                    have hb : b = bs := by
                      simp [upload_worker_step, remove_booking_for_file,
                        truthyStr, hbs, hc'] at hmem
                      exact hmem
                    subst hb
                    refine ⟨rfl, rfl, rfl, ?_⟩
                    simp [upload_worker_step, remove_booking_for_file,
                      truthyStr, hbs, hc', headFile]
  · intro isRec q s bid b
    cases isRec <;> cases q <;>
      simp [recording_end_step, utilsFunctionNames]

/-- Witness for C1 on a concrete single-task queue with all remote calls
succeeding. -/
theorem booking_completed_only_after_upload_witness :
    true = true ∧ true = true ∧ true = true ∧
    (upload_worker_step true true true c1svc).2
      = [Ev.remoteUploadBlob (headFile c1svc),
         Ev.remoteInsertVideoMeta (headFile c1svc) (some "b1"),
         Ev.remoteMarkBookingCompleted "b1", Ev.localRemoveBookingFile,
         Ev.remoteStatusUpsert, Ev.localDeleteFile (headFile c1svc)] :=
  booking_completed_only_after_upload.1 true true true c1svc "b1" (by decide)

/-- A helper fact: on a list sorted by a reflexive relation, the first element
accepted by find? is below every accepted element of the list. -/
theorem find?_sorted_min {α : Type} {r : α → α → Prop} (hrefl : ∀ x, r x x)
    (p : α → Bool) :
    ∀ l : List α, l.Sorted r → ∀ b, l.find? p = some b →
      ∀ x ∈ l, p x = true → r b x := by
  intro l
  induction l with
  | nil =>
    intro _ b hb
    simp at hb
  | cons a tl ih =>
    intro hs b hb x hx hpx
    rcases List.sorted_cons.mp hs with ⟨ha, hs'⟩
    by_cases hpa : p a = true
    · rw [List.find?_cons_of_pos _ hpa] at hb
      injection hb with hb
      subst hb
      rcases List.mem_cons.mp hx with hcase | hcase
      · subst hcase
        exact hrefl x
      · exact ha x hcase
    · rw [List.find?_cons_of_neg _ hpa] at hb
      rcases List.mem_cons.mp hx with hcase | hcase
      · subst hcase
        exact absurd hpx hpa
      · exact ih hs' b hb x hcase hpx

/-- Claim C7 (amended): when get_next_booking returns a row, that row is in
the store, it is eligible — this camera, status confirmed, dated today or
later, and, when dated today, with a start time that has not yet passed — and
it is earliest in (date, start_time) order among all eligible rows of the
store. A booking whose start has passed is not eligible even when its window
still overlaps now, and no lookahead bound or end_time is consulted. -/
theorem get_next_booking_earliest_eligible (store : List BRow) (camId : String)
    (today nowTime : Nat) (b : BRow)
    (h : get_next_booking store camId today nowTime = some b) :
    b ∈ store ∧ eligibleRow camId today nowTime b ∧
      ∀ b' ∈ store, eligibleRow camId today nowTime b' → rowLE b b' := by
  unfold get_next_booking at h
  have hsorted := List.sorted_insertionSort rowLE
    (store.filter (fun b => b.cameraId == camId && b.status == "confirmed" &&
      decide (today ≤ b.date)))
  have hperm := List.perm_insertionSort rowLE
    (store.filter (fun b => b.cameraId == camId && b.status == "confirmed" &&
      decide (today ≤ b.date)))
  have hbmem := List.mem_of_find?_eq_some h
  have hbflt := hperm.subset hbmem
  have hbstore := (List.mem_filter.mp hbflt).1
  have hbpred := (List.mem_filter.mp hbflt).2
  have hbp := List.find?_some h
  simp only [Bool.and_eq_true, beq_iff_eq, decide_eq_true_eq] at hbpred
  obtain ⟨⟨hcam, hst⟩, hdate⟩ := hbpred
  have he : eligibleRow camId today nowTime b := by
    refine ⟨hcam, hst, hdate, ?_⟩
    intro hd
    simp only [hd, beq_self_eq_true, if_true, decide_eq_true_eq, reduceIte] at hbp
    exact hbp
  refine ⟨hbstore, he, ?_⟩
  intro b' hb' he'
  have hb'flt : b' ∈ store.filter (fun b => b.cameraId == camId &&
      b.status == "confirmed" && decide (today ≤ b.date)) := by
    apply List.mem_filter.mpr
    exact ⟨hb', by simp [he'.1, he'.2.1, he'.2.2.1]⟩
  have hb'mem := hperm.mem_iff.mpr hb'flt
  have hpb' : (fun b => if b.date == today then decide (nowTime ≤ b.startTime)
      else true) b' = true := by
    by_cases hd : b'.date = today
    · simp only [hd, beq_self_eq_true, if_true, decide_eq_true_eq, reduceIte]
      exact he'.2.2.2 hd
    · simp [hd]
  have hrefl : ∀ x : BRow, rowLE x x := fun x => Or.inr ⟨rfl, Nat.le_refl _⟩
  exact find?_sorted_min hrefl _ _ hsorted b h b' hb'mem hpb'

/-- Claim C7, counterexample: a confirmed booking of this camera whose window
is in progress — its start already passed, its end still in the future, so its
window overlaps [now, now + lookahead] and it is bound to no active session —
is skipped by get_next_booking, which returns none. -/
theorem in_progress_booking_skipped :
    c7row.startTime < 8 ∧ 8 < c7row.endTime ∧ c7row.status = "confirmed" ∧
    c7row.date = 10 ∧
    get_next_booking [c7row] "raspberry_pi_camera" 10 8 = none := by
  refine ⟨by decide, by decide, rfl, rfl, by decide⟩

/-- Witness for C7's amended theorem on a concrete two-row store. -/
theorem get_next_booking_earliest_eligible_witness :
    c7later ∈ [c7row, c7later] ∧
    eligibleRow "raspberry_pi_camera" 10 8 c7later ∧
    rowLE c7later c7later := by
  have h := get_next_booking_earliest_eligible [c7row, c7later]
    "raspberry_pi_camera" 10 8 c7later (by decide)
  exact ⟨h.1, h.2.1, h.2.2 c7later (by decide) (by decide)⟩

end EZREC
